import Mathlib

/-!
# Verification of the aurora monitoring core (`src/main.py`)

Shallow embedding of the decision core of `AuroraSystem`:
the visibility table lookup (`calculate_aurora_visibility`), the
timestamp-format fallback (`format_timestamp`), the alert-suppression
state and the per-tick decision (`check_aurora_conditions`), and the
notification entry points (`send_email_alert`, `send_daily_report_email`,
`send_startup_email`).

Modelling conventions:
* Python floats (Kp index values, latitudes, `time.time()` instants) are
  modelled as rationals (`ℚ`).
* A missing value (`None`) is `Option.none`; the email configuration dict
  is modelled by a single `Bool` recording whether it is present, since
  the core logic only ever tests its truthiness.
* I/O effects (map rendering, console output, SMTP delivery) are recorded
  as boolean flags in explicit result structures; the outcome of an SMTP
  delivery attempt (success, or an exception caught by the `try`/`except`
  in the source) is an input parameter `deliver_ok`.
* The two `time.time()` calls inside one `check_aurora_conditions` cycle
  (the cooldown test and the `last_alert_time` assignment) are modelled as
  the same instant `now`.
* Display-only strings (the `status` text interpolating the Kp value, the
  email bodies) are not part of the model; the verdict carries the two
  fields the logic reads, `is_visible` and `visible_latitude`.
-/

/-- Observer location: `user_location = {'lat': ..., 'lon': ...}`. -/
structure Location where
  lat : ℚ
  lon : ℚ
  deriving DecidableEq, Repr

/-- The mutable attributes of `AuroraSystem` set in `__init__`
(`src/main.py` lines 17–22). `email_config` records whether the
configuration dict is present (`None` ↦ `false`). -/
structure AuroraSystem where
  user_location : Location
  kp_threshold : ℚ
  last_alert_time : Option ℚ
  alert_cooldown : ℚ
  email_config : Bool
  deriving DecidableEq, Repr

/-- `AuroraSystem.__init__`: stores the location and configuration flag
unchanged — no validation, no clamping — and sets `kp_threshold = 4`,
`last_alert_time = None`, `alert_cooldown = 3600`. -/
def AuroraSystem.init (user_location : Location) (email_config : Bool) :
    AuroraSystem :=
  { user_location := user_location
    kp_threshold := 4
    last_alert_time := none
    alert_cooldown := 3600
    email_config := email_config }

/-- The `visibility_map` dict of `calculate_aurora_visibility`, listed in
the order produced by `sorted(visibility_map.keys(), reverse=True)`:
integer Kp levels 9 down to 0 with their minimum visible latitudes. -/
def visibility_map : List (ℚ × ℚ) :=
  [(9, 35), (8, 40), (7, 45), (6, 50), (5, 55), (4, 60), (3, 65), (2, 70),
   (1, 75), (0, 80)]

/-- The `for kp_level in sorted(...) ... if kp_index >= kp_level: ... break`
loop: first level (descending) not exceeding `kp_index` wins; the initial
value `visible_latitude = 80` survives when no level matches. -/
def scan_levels : List (ℚ × ℚ) → ℚ → ℚ
  | [], _ => 80
  | (kp_level, lat) :: rest, kp_index =>
      if kp_level ≤ kp_index then lat else scan_levels rest kp_index

/-- The non-display outputs of `calculate_aurora_visibility`:
`(is_visible, visible_latitude)`. -/
structure Verdict where
  is_visible : Bool
  visible_latitude : ℚ
  deriving DecidableEq, Repr

/-- `calculate_aurora_visibility` (`src/main.py` lines 53–65):
table scan then `is_visible = user_lat >= visible_latitude`. -/
def calculate_aurora_visibility (sys : AuroraSystem) (kp_index : ℚ) :
    Verdict :=
  let visible_latitude := scan_levels visibility_map kp_index
  { is_visible := decide (sys.user_location.lat ≥ visible_latitude)
    visible_latitude := visible_latitude }

/-- `format_timestamp` (`src/main.py` lines 40–51). The external
`datetime.strptime`/`strftime` pair is abstracted: `strptime` returns
`none` exactly when the library call raises (the `except` branch), and
`strftime` renders a successfully parsed value. The function returns the
original string whenever parsing fails. -/
def format_timestamp (strptime : String → Option (ℕ × ℕ × ℕ × ℕ × ℕ × ℕ))
    (strftime : ℕ × ℕ × ℕ × ℕ × ℕ × ℕ → String)
    (timestamp_str : Option String) : String :=
  match timestamp_str with
  | none => "Unknown"
  | some s =>
      if s = "Unknown" then "Unknown"
      else
        match strptime s with
        | some dt => strftime dt
        | none => s

/-- The suppression test embedded in `check_aurora_conditions` line 501:
the alert clause is `last_alert_time is None or now - last > cooldown`,
so suppression holds when `last_alert_time` is set and
`¬(now - last > cooldown)`. -/
def should_suppress (last_alert_time : Option ℚ) (cooldown now : ℚ) : Bool :=
  match last_alert_time with
  | none => false
  | some t => decide (¬ (now - t > cooldown))

/-- `record_alert`: the single mutation `self.last_alert_time = time.time()`
(line 506). -/
def record_alert (now : ℚ) : Option ℚ := some now

/-- The per-tick decision, following §4.3 of the design: the code's
`should_alert` boolean splits the non-`NoData` outcomes into `Alert`
(threshold met, not suppressed), `Suppressed` (threshold met, cooldown
blocked) and `ReportOnly` (threshold not met). -/
inductive Decision
  | NoData
  | Suppressed
  | ReportOnly
  | Alert
  deriving DecidableEq, Repr

/-- Observable outcome of one `check_aurora_conditions` cycle. -/
structure CheckResult where
  decision : Decision
  /-- `self.last_alert_time` after the call. -/
  last_alert_time : Option ℚ
  /-- whether `create_aurora_map` was called. -/
  map_generated : Bool
  /-- whether `send_email_alert` was invoked. -/
  email_attempted : Bool
  /-- whether an alert email was actually delivered. -/
  email_sent : Bool
  deriving DecidableEq, Repr

/-- `check_aurora_conditions` (`src/main.py` lines 484–517).
`reading` is the Kp value from `get_kp_index` (`none` on fetch failure,
the early-`return` path). On the alert path `last_alert_time` is assigned
before `create_aurora_map` and `send_email_alert` run, and the return
value of `send_email_alert` (here `email_config && deliver_ok`) is
ignored. -/
def check_aurora_conditions (sys : AuroraSystem) (reading : Option ℚ)
    (now : ℚ) (deliver_ok : Bool) : CheckResult :=
  match reading with
  | none =>
      { decision := Decision.NoData
        last_alert_time := sys.last_alert_time
        map_generated := false
        email_attempted := false
        email_sent := false }
  | some kp_index =>
      let v := calculate_aurora_visibility sys kp_index
      let threshold_met :=
        decide (kp_index ≥ sys.kp_threshold) && v.is_visible
      let suppress :=
        should_suppress sys.last_alert_time sys.alert_cooldown now
      if threshold_met && !suppress then
        { decision := Decision.Alert
          last_alert_time := record_alert now
          map_generated := true
          email_attempted := sys.email_config
          email_sent := sys.email_config && deliver_ok }
      else if threshold_met then
        { decision := Decision.Suppressed
          last_alert_time := sys.last_alert_time
          map_generated := true
          email_attempted := false
          email_sent := false }
      else
        { decision := Decision.ReportOnly
          last_alert_time := sys.last_alert_time
          map_generated := true
          email_attempted := false
          email_sent := false }

/-- Observable outcome of `send_email_alert` / `send_startup_email`. -/
structure SendResult where
  /-- the boolean the method returns. -/
  returned : Bool
  /-- whether an SMTP delivery was attempted. -/
  delivery_attempted : Bool
  deriving DecidableEq, Repr

/-- `send_email_alert` (`src/main.py` lines 388–475): with no email
configuration it returns `False` before any delivery attempt; otherwise
it attempts delivery and returns its outcome (the `except` branch returns
`False`). -/
def send_email_alert (sys : AuroraSystem) (deliver_ok : Bool) : SendResult :=
  if sys.email_config then
    { returned := deliver_ok, delivery_attempted := true }
  else
    { returned := false, delivery_attempted := false }

/-- `send_startup_email` (`src/main.py` lines 315–386): same guard and
delivery structure as `send_email_alert`, no map involved. -/
def send_startup_email (sys : AuroraSystem) (deliver_ok : Bool) :
    SendResult :=
  if sys.email_config then
    { returned := deliver_ok, delivery_attempted := true }
  else
    { returned := false, delivery_attempted := false }

/-- Observable outcome of `send_daily_report_email`. -/
structure DailyReportResult where
  returned : Bool
  delivery_attempted : Bool
  /-- whether `create_aurora_map` was called. -/
  map_generated : Bool
  /-- the Kp value used in the report (`none` when the method returned
  before fetching). -/
  kp_reported : Option ℚ
  /-- `self.last_alert_time` after the call (the method never assigns it). -/
  last_alert_time : Option ℚ
  deriving DecidableEq, Repr

/-- `send_daily_report_email` (`src/main.py` lines 208–313): with no email
configuration it returns `False` before fetching, rendering or sending;
otherwise it fetches the Kp value (falling back to `0` when the source is
unavailable, lines 218–220), renders the map, and attempts delivery.
It never reads `kp_threshold`, `alert_cooldown` or `last_alert_time`. -/
def send_daily_report_email (sys : AuroraSystem) (reading : Option ℚ)
    (deliver_ok : Bool) : DailyReportResult :=
  if sys.email_config then
    let kp_index := match reading with | none => 0 | some kp => kp
    { returned := deliver_ok
      delivery_attempted := true
      map_generated := true
      kp_reported := some kp_index
      last_alert_time := sys.last_alert_time }
  else
    { returned := false
      delivery_attempted := false
      map_generated := false
      kp_reported := none
      last_alert_time := sys.last_alert_time }

/-- The concrete configuration of the `__main__` block: East Peoria,
Illinois, with an email configuration present. -/
def eastPeoria : AuroraSystem :=
  AuroraSystem.init { lat := 40.6664, lon := -89.5890 } true

/-- Closed form of the descending table scan as a chain of comparisons. -/
lemma scan_levels_eq (kp : ℚ) :
    scan_levels visibility_map kp =
      if 9 ≤ kp then 35 else if 8 ≤ kp then 40 else if 7 ≤ kp then 45
      else if 6 ≤ kp then 50 else if 5 ≤ kp then 55 else if 4 ≤ kp then 60
      else if 3 ≤ kp then 65 else if 2 ≤ kp then 70 else if 1 ≤ kp then 75
      else if 0 ≤ kp then 80 else 80 := rfl

set_option maxHeartbeats 4000000 in
/-- C1: for every index value the visibility model selects the latitude
threshold of the largest tabulated integer level (0..9) that is ≤ the
index value (descending scan, first match wins): `evaluate (4.9) lat`
returns the same verdict as `evaluate 4 lat`, a negative index defaults
the boundary to 80 (so `evaluate (-1) 90` has `boundary_latitude = 80`),
an index ≥ 9 uses level 9, and any index in `[L, L+1)` for `L ≤ 9` uses
level `L`'s threshold. -/
theorem visibility_selects_largest_level_le :
    (∀ sys : AuroraSystem,
        calculate_aurora_visibility sys (49/10) =
          calculate_aurora_visibility sys 4) ∧
    ((calculate_aurora_visibility
        (AuroraSystem.init { lat := 90, lon := 0 } false)
        (-1)).visible_latitude = 80) ∧
    (∀ kp : ℚ, kp < 0 → scan_levels visibility_map kp = 80) ∧
    (∀ kp : ℚ, 9 ≤ kp → scan_levels visibility_map kp = 35) ∧
    (∀ L : ℕ, L ≤ 9 → ∀ kp : ℚ, (L : ℚ) ≤ kp → kp < (L : ℚ) + 1 →
        scan_levels visibility_map kp = scan_levels visibility_map (L : ℚ)) := by
  refine ⟨?_, ?_, ?_, ?_, ?_⟩
  · have h : scan_levels visibility_map (49/10) = scan_levels visibility_map 4 := by
      rw [scan_levels_eq, scan_levels_eq]; norm_num
    intro sys
    simp [calculate_aurora_visibility, h]
  · decide
  · intro kp h
    rw [scan_levels_eq]
    split_ifs <;> first | rfl | linarith
  · intro kp h
    rw [scan_levels_eq, if_pos h]
  · intro L hL kp h1 h2
    interval_cases L <;>
      (push_cast at h1 h2 ⊢
       conv_rhs => rw [scan_levels_eq]
       norm_num
       rw [scan_levels_eq]
       split_ifs <;> first | rfl | linarith)

/-- Witness for C1 at concrete inputs: `-1` is below every level, and
`3.67` lies in `[3, 4)` so it uses level 3's threshold. -/
theorem visibility_selects_largest_level_le_witness :
    scan_levels visibility_map (-1) = 80 ∧
    scan_levels visibility_map (367/100) =
      scan_levels visibility_map ((3 : ℕ) : ℚ) :=
  ⟨visibility_selects_largest_level_le.2.2.1 (-1) (by norm_num),
   visibility_selects_largest_level_le.2.2.2.2 3 (by norm_num) (367/100)
     (by norm_num) (by norm_num)⟩

/-- C2 counterexample: when the elapsed time equals the cooldown exactly
(`now - last = cooldown_seconds = 3600`), the code suppresses (the alert
clause requires `now - last > cooldown`, strictly), yet
`now - last < cooldown_seconds` is false — so "suppressed exactly when
`now - last < cooldown_seconds`" fails at this input. -/
theorem suppress_at_exact_cooldown_counterexample :
    should_suppress (record_alert 0) 3600 3600 = true ∧
    ¬ ((3600 : ℚ) - 0 < 3600) := by
  refine ⟨by norm_num [should_suppress, record_alert], by norm_num⟩

/-- C2 (amended): an alert is suppressed by cooldown exactly when
`last_alert_at` is set and `now - last_alert_at ≤ cooldown_seconds`
(the code alerts only when the elapsed time strictly exceeds the
cooldown); the first-ever alert is never suppressed; with
`cooldown_seconds = 3600`, a query at `now + 1` after
`record_alert now` is suppressed and a query at `now + 3601` is not. -/
theorem suppress_iff_within_cooldown :
    (∀ (last : Option ℚ) (cooldown now : ℚ),
        should_suppress last cooldown now = true ↔
          ∃ t, last = some t ∧ now - t ≤ cooldown) ∧
    (∀ cooldown now : ℚ, should_suppress none cooldown now = false) ∧
    (∀ now : ℚ, should_suppress (record_alert now) 3600 (now + 1) = true) ∧
    (∀ now : ℚ, should_suppress (record_alert now) 3600 (now + 3601) = false) := by
  refine ⟨?_, ?_, ?_, ?_⟩
  · intro last cooldown now
    cases last with
    | none => simp [should_suppress]
    | some t => simp [should_suppress, not_lt]
  · intro cooldown now
    rfl
  · intro now
    simp only [should_suppress, record_alert, decide_eq_true_eq, not_lt]
    linarith
  · intro now
    simp only [should_suppress, record_alert, decide_eq_false_iff_not,
      not_not, gt_iff_lt]
    linarith

/-- C3 counterexample: at observer latitude 40.6664 with
`kp_threshold = 4`, a first-cycle check with index 6.0 yields
`ReportOnly`, not `Alert`: level 6's boundary is 50°N and
40.6664 < 50, so `is_visible` is false and the threshold conjunction
fails. -/
theorem kp6_first_cycle_not_alert_counterexample :
    (check_aurora_conditions eastPeoria (some 6) 0 true).decision =
        Decision.ReportOnly ∧
    Decision.ReportOnly ≠ Decision.Alert ∧
    (calculate_aurora_visibility eastPeoria 6).visible_latitude = 50 ∧
    (calculate_aurora_visibility eastPeoria 6).is_visible = false := by
  refine ⟨?_, by decide, ?_, ?_⟩ <;>
    norm_num [check_aurora_conditions, calculate_aurora_visibility,
      should_suppress, record_alert, eastPeoria, AuroraSystem.init,
      scan_levels_eq]

/-- C3 (amended): with `kp_threshold = 4` and observer latitude 40.6664,
a check with index 3.67 produces `ReportOnly` (level 3 boundary 65°N,
not visible); a check with index 6.0 also produces `ReportOnly` (level 6
boundary 50°N, still above the observer); with index 8.0 (level 8
boundary 40°N ≤ 40.6664) a check produces `Alert` on the first cycle,
`Suppressed` on an immediate repeat cycle, and `Alert` again once the
cooldown has elapsed. -/
theorem east_peoria_cycle_outcomes :
    ((check_aurora_conditions eastPeoria (some (367/100)) 0 true).decision =
        Decision.ReportOnly) ∧
    (scan_levels visibility_map (367/100) = 65) ∧
    ((check_aurora_conditions eastPeoria (some 6) 0 true).decision =
        Decision.ReportOnly) ∧
    ((check_aurora_conditions eastPeoria (some 8) 0 true).decision =
        Decision.Alert) ∧
    ((check_aurora_conditions eastPeoria (some 8) 0 true).last_alert_time =
        some 0) ∧
    ((check_aurora_conditions
        { eastPeoria with last_alert_time := some 0 } (some 8) 1
        true).decision = Decision.Suppressed) ∧
    ((check_aurora_conditions
        { eastPeoria with last_alert_time := some 0 } (some 8) 1
        true).last_alert_time = some 0) ∧
    ((check_aurora_conditions
        { eastPeoria with last_alert_time := some 0 } (some 8) 3601
        true).decision = Decision.Alert) := by
  refine ⟨?_, ?_, ?_, ?_, ?_, ?_, ?_, ?_⟩ <;>
    norm_num [check_aurora_conditions, calculate_aurora_visibility,
      should_suppress, record_alert, eastPeoria, AuroraSystem.init,
      scan_levels_eq]

/-- C4: the visibility verdict is inclusive at the boundary:
`is_visible` holds exactly when `observer_latitude ≥ boundary_latitude`,
and for every tabulated level `L` in 0..9, evaluating at the boundary
latitude itself gives `is_visible = true` while evaluating 0.01° south
of it gives `is_visible = false`. -/
theorem visibility_inclusive_at_boundary :
    (∀ (sys : AuroraSystem) (kp : ℚ),
        (calculate_aurora_visibility sys kp).is_visible =
          decide (sys.user_location.lat ≥
            (calculate_aurora_visibility sys kp).visible_latitude)) ∧
    (∀ L : Fin 10,
        (calculate_aurora_visibility
            (AuroraSystem.init
              { lat := scan_levels visibility_map ((L : ℕ) : ℚ), lon := 0 }
              false)
            ((L : ℕ) : ℚ)).is_visible = true ∧
        (calculate_aurora_visibility
            (AuroraSystem.init
              { lat := scan_levels visibility_map ((L : ℕ) : ℚ) - 1/100,
                lon := 0 }
              false)
            ((L : ℕ) : ℚ)).is_visible = false) := by
  refine ⟨fun sys kp => rfl, ?_⟩
  intro L
  fin_cases L <;>
    constructor <;>
      norm_num [calculate_aurora_visibility, AuroraSystem.init,
        scan_levels_eq]

/-- C5: when the data source is unavailable (`get_kp_index` returns no
value), the check returns `NoData` as its one early-exit path: no map is
generated, no notification is attempted, and `last_alert_time` is left
unchanged. -/
theorem nodata_early_exit (sys : AuroraSystem) (now : ℚ)
    (deliver_ok : Bool) :
    check_aurora_conditions sys none now deliver_ok =
      { decision := Decision.NoData
        last_alert_time := sys.last_alert_time
        map_generated := false
        email_attempted := false
        email_sent := false } := rfl

/-- C6: `last_alert_time` is mutated only on cycles that decide `Alert`
(never on `Suppressed`, `ReportOnly` or `NoData` cycles); on an `Alert`
cycle it is set to the decision instant independently of the delivery
outcome (the assignment happens before `send_email_alert` runs and its
result is ignored), and a cycle whose elapsed time since the last alert
does not exceed the cooldown never decides `Alert` — so a failed delivery
still starts the cooldown and cannot cause a duplicate alert within it. -/
theorem last_alert_mutated_only_on_alert :
    (∀ (sys : AuroraSystem) (reading : Option ℚ) (now : ℚ) (d : Bool),
        (check_aurora_conditions sys reading now d).last_alert_time =
          if (check_aurora_conditions sys reading now d).decision =
              Decision.Alert
          then record_alert now else sys.last_alert_time) ∧
    (∀ (sys : AuroraSystem) (reading : Option ℚ) (now : ℚ) (d d' : Bool),
        (check_aurora_conditions sys reading now d).last_alert_time =
          (check_aurora_conditions sys reading now d').last_alert_time ∧
        (check_aurora_conditions sys reading now d).decision =
          (check_aurora_conditions sys reading now d').decision) ∧
    (∀ (sys : AuroraSystem) (t kp now : ℚ) (d : Bool),
        now - t ≤ sys.alert_cooldown →
        (check_aurora_conditions { sys with last_alert_time := some t }
            (some kp) now d).decision ≠ Decision.Alert) := by
  refine ⟨?_, ?_, ?_⟩
  · intro sys reading now d
    cases reading with
    | none => simp [check_aurora_conditions]
    | some kp =>
        simp only [check_aurora_conditions]
        split_ifs <;> simp_all
  · intro sys reading now d d'
    cases reading with
    | none => simp [check_aurora_conditions]
    | some kp =>
        simp only [check_aurora_conditions]
        split_ifs <;> simp_all
  · intro sys t kp now d h
    have hs : should_suppress (some t) sys.alert_cooldown now = true := by
      simp only [should_suppress, gt_iff_lt, not_lt, decide_eq_true_eq]
      exact h
    simp [check_aurora_conditions, hs]
    split_ifs <;> simp

/-- Witness for C6: with the last alert recorded at time 0, a repeat
check at time 0 (elapsed 0 ≤ 3600) does not decide `Alert`. -/
theorem last_alert_mutated_only_on_alert_witness :
    (0 : ℚ) - 0 ≤ eastPeoria.alert_cooldown ∧
    (check_aurora_conditions { eastPeoria with last_alert_time := some 0 }
        (some 8) 0 true).decision ≠ Decision.Alert :=
  ⟨by norm_num [eastPeoria, AuroraSystem.init],
   last_alert_mutated_only_on_alert.2.2 eastPeoria 0 8 0 true
     (by norm_num [eastPeoria, AuroraSystem.init])⟩

/-- C7 counterexample: a latitude of 100 (outside [-90, 90]) is accepted
unchanged by the constructor — no input-validation error is raised
anywhere, nothing is clamped — and the visibility model still produces
an ordinary verdict for it, so the claimed rejection at the
construction boundary does not happen. -/
theorem out_of_range_latitude_accepted_counterexample :
    (AuroraSystem.init { lat := 100, lon := 0 } false).user_location.lat =
        100 ∧
    ¬ ((100 : ℚ) ≤ 90) ∧
    (calculate_aurora_visibility
        (AuroraSystem.init { lat := 100, lon := 0 } false) 5).is_visible =
      true :=
  ⟨rfl, by norm_num,
   by norm_num [calculate_aurora_visibility, AuroraSystem.init,
     scan_levels_eq]⟩

/-- C7 (amended): an observer latitude outside [-90, 90] is not validated
anywhere: the constructor stores the location unchanged (no error, never
clamped) and the visibility model computes the usual table-scan verdict
for any latitude whatsoever. -/
theorem latitude_never_validated :
    (∀ (loc : Location) (e : Bool),
        (AuroraSystem.init loc e).user_location = loc) ∧
    (∀ (loc : Location) (e : Bool) (kp : ℚ),
        calculate_aurora_visibility (AuroraSystem.init loc e) kp =
          { is_visible := decide (loc.lat ≥ scan_levels visibility_map kp)
            visible_latitude := scan_levels visibility_map kp }) :=
  ⟨fun _ _ => rfl, fun _ _ _ => rfl⟩

/-- C8: the calendar-triggered daily report path (with the notifier
configured) always renders the artifact and attempts the summary
delivery; its observable behaviour is independent of `kp_threshold`,
`alert_cooldown` and `last_alert_time`; and it never mutates
`last_alert_time`. -/
theorem daily_report_independent_of_alert_state :
    (∀ (sys : AuroraSystem) (reading : Option ℚ) (d : Bool),
        sys.email_config = true →
          (send_daily_report_email sys reading d).map_generated = true ∧
          (send_daily_report_email sys reading d).delivery_attempted =
            true) ∧
    (∀ (sys : AuroraSystem) (reading : Option ℚ) (d : Bool),
        (send_daily_report_email sys reading d).last_alert_time =
          sys.last_alert_time) ∧
    (∀ (loc : Location) (thr thr' : ℚ) (last last' : Option ℚ)
        (cd cd' : ℚ) (e : Bool) (reading : Option ℚ) (d : Bool),
        (send_daily_report_email ⟨loc, thr, last, cd, e⟩ reading
              d).returned =
            (send_daily_report_email ⟨loc, thr', last', cd', e⟩ reading
              d).returned ∧
        (send_daily_report_email ⟨loc, thr, last, cd, e⟩ reading
              d).delivery_attempted =
            (send_daily_report_email ⟨loc, thr', last', cd', e⟩ reading
              d).delivery_attempted ∧
        (send_daily_report_email ⟨loc, thr, last, cd, e⟩ reading
              d).map_generated =
            (send_daily_report_email ⟨loc, thr', last', cd', e⟩ reading
              d).map_generated ∧
        (send_daily_report_email ⟨loc, thr, last, cd, e⟩ reading
              d).kp_reported =
            (send_daily_report_email ⟨loc, thr', last', cd', e⟩ reading
              d).kp_reported) := by
  refine ⟨?_, ?_, ?_⟩
  · intro sys reading d he
    refine ⟨?_, ?_⟩ <;> simp [send_daily_report_email, he]
  · intro sys reading d
    by_cases he : sys.email_config <;>
      simp [send_daily_report_email, he]
  · intro loc thr thr' last last' cd cd' e reading d
    cases e <;> simp [send_daily_report_email]

/-- Witness for C8: with East Peoria's configured notifier, the daily
report renders the map. -/
theorem daily_report_independent_of_alert_state_witness :
    eastPeoria.email_config = true ∧
    (send_daily_report_email eastPeoria (some 5) true).map_generated =
      true :=
  ⟨rfl,
   (daily_report_independent_of_alert_state.1 eastPeoria (some 5) true
       rfl).1⟩

/-- C9: whenever the timestamp parser fails on a string (for every parser
behaviour and every renderer), `format_timestamp` returns the original
raw string unchanged instead of raising; the function is total by
construction, so no input string can make it crash. -/
theorem format_timestamp_fallback
    (strptime : String → Option (ℕ × ℕ × ℕ × ℕ × ℕ × ℕ))
    (strftime : ℕ × ℕ × ℕ × ℕ × ℕ × ℕ → String) (s : String)
    (hfail : strptime s = none) :
    format_timestamp strptime strftime (some s) = s := by
  simp only [format_timestamp]
  split_ifs with h
  · exact h.symm
  · rw [hfail]

/-- Witness for C9: a parser that fails on the string
`"not a timestamp"` makes `format_timestamp` return it unchanged. -/
theorem format_timestamp_fallback_witness :
    (fun _ : String => (none : Option (ℕ × ℕ × ℕ × ℕ × ℕ × ℕ)))
        "not a timestamp" = none ∧
    format_timestamp (fun _ => none) (fun _ => "")
        (some "not a timestamp") = "not a timestamp" :=
  ⟨rfl,
   format_timestamp_fallback (fun _ => none) (fun _ => "")
     "not a timestamp" rfl⟩

/-- C10: with the email configuration absent, every send operation
(alert email, daily report email, startup email) returns `false`
without attempting any delivery (the daily report also renders
nothing), while an alert-qualifying condition check still records
`last_alert_time` and still renders the map — the alert decision and
cooldown state are independent of whether the notifier is configured. -/
theorem unconfigured_email_returns_false :
    (∀ (sys : AuroraSystem) (reading : Option ℚ) (d : Bool),
        sys.email_config = false →
          send_email_alert sys d =
              { returned := false, delivery_attempted := false } ∧
          send_startup_email sys d =
              { returned := false, delivery_attempted := false } ∧
          send_daily_report_email sys reading d =
              { returned := false
                delivery_attempted := false
                map_generated := false
                kp_reported := none
                last_alert_time := sys.last_alert_time }) ∧
    (∀ (sys : AuroraSystem) (kp now : ℚ) (d : Bool),
        sys.email_config = false →
        (check_aurora_conditions sys (some kp) now d).decision =
            Decision.Alert →
          (check_aurora_conditions sys (some kp) now d).last_alert_time =
              record_alert now ∧
          (check_aurora_conditions sys (some kp) now d).map_generated =
              true ∧
          (check_aurora_conditions sys (some kp) now d).email_attempted =
              false) := by
  refine ⟨?_, ?_⟩
  · intro sys reading d he
    refine ⟨?_, ?_, ?_⟩ <;>
      simp [send_email_alert, send_startup_email,
        send_daily_report_email, he]
  · intro sys kp now d he hdec
    revert hdec
    simp only [check_aurora_conditions]
    split_ifs <;> simp [he, record_alert]

/-- Witness for C10: with latitude 90 and no email configuration, a
first-cycle check at index 9 decides `Alert` and records the alert time,
and the alert email path returns `false`. -/
theorem unconfigured_email_returns_false_witness :
    (AuroraSystem.init { lat := 90, lon := 0 } false).email_config =
        false ∧
    send_email_alert (AuroraSystem.init { lat := 90, lon := 0 } false)
        true =
      { returned := false, delivery_attempted := false } ∧
    (check_aurora_conditions
        (AuroraSystem.init { lat := 90, lon := 0 } false) (some 9) 0
        true).last_alert_time = record_alert 0 :=
  ⟨rfl,
   (unconfigured_email_returns_false.1
       (AuroraSystem.init { lat := 90, lon := 0 } false) none true rfl).1,
   (unconfigured_email_returns_false.2
       (AuroraSystem.init { lat := 90, lon := 0 } false) 9 0 true rfl
       (by norm_num [check_aurora_conditions, calculate_aurora_visibility,
         should_suppress, record_alert, AuroraSystem.init,
         scan_levels_eq])).1⟩
